import Mathlib

/-!
Verification development for the SonarQube MCP server repository.

The repository exposes a SonarQube REST API as MCP tools.  We give a
shallow embedding of the parts relevant to the specification claims:

* the exception-normalisation dispatch of the transport clients
  (`src/sonarqube/client.py` `__make_request`, `src/sonarqube/base.py`
  `_make_request`, `src/client/client.py` `__make_request`);
* the connection validators (`__validate_connection`,
  `_validate_connection`, `validate_connection`);
* the parameter clamping of the paginated endpoint operations and request
  assembly (`src/sonarqube/issue.py`, `src/sonarqube/rule.py`,
  `src/sonarqube/project.py`);
* the source range normalisation (`src/sonarqube/source.py`,
  `src/sonarqube/client.py` `get_source` / `get_scm_info`);
* the component-key construction (`src/tools/source.py`, `src/server.py`);
* the file-issue aggregation operation `get_file_issues_information`,
  whose body is absent from the repository sources (only its tool
  wrappers in `src/server.py` and `src/tools/source.py` exist), and which
  is therefore modelled from the specification.

Remote-server behaviour is abstracted by explicit outcome/environment
values passed to each embedded function, so every definition is an
executable total function.
-/

namespace SonarQubeMCP

/-- An error descriptor: the Python dictionaries of shape
`{"error": ..., "details": ...}` that every operation returns on failure. -/
structure ErrorDescriptor where
  error : String
  details : String
deriving DecidableEq, Repr

/-- The observable outcome of attempting one HTTP request, abstracting the
remote server and the HTTP library.  Each constructor corresponds to one
exception class (or success) that the Python transport code dispatches on:
`statusError` is `HTTPStatusError` / `HTTPError` carrying the response
status and text, `timeout` is `TimeoutException` / `Timeout`,
`requestError` is `RequestError` / `RequestException`, `jsonDecodeError`
is `JSONDecodeError`, `valueError` is `ValueError`, and `otherException`
is any other exception. -/
inductive HttpOutcome where
  | ok (body : String)
  | statusError (code : Nat) (text : String)
  | timeout
  | requestError (msg : String)
  | jsonDecodeError (msg : String)
  | valueError (msg : String)
  | otherException (msg : String)
deriving DecidableEq, Repr

/-- What a transport-client call produces at its boundary: a success
payload, an error-descriptor dictionary, or an exception that escapes
(`raised`). -/
inductive CallResult where
  | success (body : String)
  | errorDict (e : ErrorDescriptor)
  | raised
deriving DecidableEq, Repr

/-- Whether a call result is an error-descriptor dictionary. -/
def CallResult.isErrorDict : CallResult → Bool
  | .errorDict _ => true
  | _ => false

namespace SonarqubeClient

/-- Embeds `SonarQubeClient.__make_request` of `src/sonarqube/client.py`
(the synchronous httpx client): the health-check gate (lines 92-96) and the
try/except normalisation of the request execution (lines 129-160).
Returns the call result together with a flag telling whether a network
request was issued.  `connected` and `connectionMessage` are the instance
fields read by the gate; `tmo` is `timeout or self.timeout`; `outcome` is
what the network attempt would produce. -/
def makeRequest (connected : Bool) (healthCheck : Bool)
    (connectionMessage : String) (tmo : Nat) (outcome : HttpOutcome) :
    CallResult × Bool :=
  if healthCheck && !connected then
    (.errorDict ⟨"SonarQube client is not healthy", connectionMessage⟩, false)
  else
    (match outcome with
     | .ok body => .success body
     | .timeout =>
         .errorDict ⟨"Timeout",
           "Request timed out after " ++ toString tmo ++ " seconds"⟩
     | .statusError code text =>
         .errorDict ⟨"HTTP " ++ toString code,
           "HTTP " ++ toString code ++ ": " ++ text⟩
     | .requestError msg =>
         .errorDict ⟨"Request failed", "Request failed: " ++ msg⟩
     | .jsonDecodeError msg =>
         .errorDict ⟨"JSON serialization error",
           "JSON serialization error: " ++ msg⟩
     | .valueError msg =>
         .errorDict ⟨"Exception", "Unexpected error: " ++ msg⟩
     | .otherException msg =>
         .errorDict ⟨"Exception", "Unexpected error: " ++ msg⟩,
     true)

end SonarqubeClient

namespace SonarQubeBase

/-- Embeds `SonarQubeBase._make_request` of `src/sonarqube/base.py` (the
asynchronous httpx transport): the try/except normalisation of lines
113-150.  There is no readiness gate in this transport.  On
`HTTPStatusError` the handler returns a descriptor only when the status is
not one of 500/502/503/504 or the call is a health check, and re-raises
otherwise; on `TimeoutException` it always re-raises. -/
def makeRequest (healthCheck : Bool) (_tmo : Nat) (outcome : HttpOutcome) :
    CallResult :=
  match outcome with
  | .ok body => .success body
  | .statusError code text =>
      if code ∉ ([500, 502, 503, 504] : List Nat) ∨ healthCheck then
        .errorDict ⟨"HTTP " ++ toString code,
          "HTTP " ++ toString code ++ ": " ++ text⟩
      else
        .raised
  | .timeout => .raised
  | .requestError msg =>
      .errorDict ⟨"Request failed", "Request failed: " ++ msg⟩
  | .jsonDecodeError msg =>
      .errorDict ⟨"JSON serialization error",
        "JSON serialization error: " ++ msg⟩
  | .valueError msg =>
      .errorDict ⟨"Exception", "Unexpected error: " ++ msg⟩
  | .otherException msg =>
      .errorDict ⟨"Exception", "Unexpected error: " ++ msg⟩

end SonarQubeBase

namespace RequestsClient

/-- Embeds `SonarQubeClient.__make_request` of `src/client/client.py` (the
requests-based client): the health-check gate (lines 30-34) and the
try/except normalisation (lines 78-86).  A timeout in `requests` is a
subclass of `RequestException`, so the `timeout` outcome is caught by the
`Request failed` handler; there is no catch-all `Exception` handler, so
`otherException` escapes. -/
def makeRequest (connected : Bool) (healthCheck : Bool)
    (connectionMessage : String) (outcome : HttpOutcome) :
    CallResult × Bool :=
  if healthCheck && !connected then
    (.errorDict ⟨"SonarQube client is not healthy", connectionMessage⟩, false)
  else
    (match outcome with
     | .ok body => .success body
     | .statusError code text =>
         .errorDict ⟨"HTTP " ++ toString code, text⟩
     | .jsonDecodeError msg =>
         .errorDict ⟨"JSON serialization error", msg⟩
     | .timeout =>
         .errorDict ⟨"Request failed", "timed out"⟩
     | .requestError msg =>
         .errorDict ⟨"Request failed", msg⟩
     | .valueError msg =>
         .errorDict ⟨"Invalid request", msg⟩
     | .otherException _ => .raised,
     true)

end RequestsClient

/-- The shape of a response to one of the validation-sequence calls,
abstracting only the distinctions the Python code tests: a dictionary
containing an `error` key, a plain JSON dictionary (with its `valid` flag
and optional `login` field), or a raw text body (a non-dict value). -/
inductive ApiResp where
  | errorDict (e : ErrorDescriptor)
  | dict (valid : Bool) (login : Option String)
  | text (s : String)
deriving DecidableEq, Repr

/-- The answers of the remote server to the three validation-sequence calls:
the auth-check endpoint, the current-user endpoint, and the server-version
endpoint. -/
structure ValidationEnv where
  authResp : ApiResp
  userResp : ApiResp
  versionResp : ApiResp
deriving DecidableEq, Repr

/-- The observable result of a validation run: the returned boolean, the
final readiness flag, the final status message and cached version, and the
list of endpoints actually called over the network, in order. -/
structure ValidationOutcome where
  result : Bool
  connected : Bool
  connectionMessage : String
  version : String
  calls : List String
deriving DecidableEq, Repr

namespace SonarqubeClient

/-- Embeds `SonarQubeClient.__validate_connection` of
`src/sonarqube/client.py` (lines 170-227).  `baseUrl` and `token` are the
stored instance fields; `env` supplies the remote answers.  The instance
starts with `connected = False`, so the `connected` field of the outcome is the final value of the flag. -/
def validateConnection (baseUrl token : String) (env : ValidationEnv) :
    ValidationOutcome :=
  if baseUrl = "" ∨ token = "" then
    { result := false, connected := false,
      connectionMessage := "Missing SONARQUBE_URL or SONARQUBE_TOKEN",
      version := "", calls := [] }
  else
    match env.authResp with
    | .errorDict e =>
        { result := false, connected := false,
          connectionMessage := e.details,
          version := "", calls := ["/api/authentication/validate"] }
    | .text _ =>
        { result := false, connected := false,
          connectionMessage := "Invalid authentication response from SonarQube",
          version := "", calls := ["/api/authentication/validate"] }
    | .dict valid _ =>
        if !valid then
          { result := false, connected := false,
            connectionMessage := "Invalid authentication response from SonarQube",
            version := "", calls := ["/api/authentication/validate"] }
        else
          let msg := match env.userResp with
            | .dict _ login =>
                "Connected to SonarQube server at " ++ baseUrl ++
                  ". Authenticated as " ++ login.getD "unknown user"
            | _ => "Connected to SonarQube server at " ++ baseUrl
          let ver := match env.versionResp with
            | .text s => s
            | _ => ""
          { result := true, connected := true, connectionMessage := msg,
            version := ver,
            calls := ["/api/authentication/validate", "/api/users/current",
                      "/api/server/version"] }

end SonarqubeClient

namespace SonarQubeBase

/-- Embeds `SonarQubeBase._validate_connection` of `src/sonarqube/base.py`
(lines 152-205).  This transport has no `connected` flag; the `connected` field of the outcome is fixed to `false` and only `result`, message, version
and the issued calls are meaningful.  The control flow is identical to the validator of the synchronous client. -/
def validateConnection (baseUrl token : String) (env : ValidationEnv) :
    ValidationOutcome :=
  if baseUrl = "" ∨ token = "" then
    { result := false, connected := false,
      connectionMessage := "Missing SONARQUBE_URL or SONARQUBE_TOKEN",
      version := "", calls := [] }
  else
    match env.authResp with
    | .errorDict e =>
        { result := false, connected := false,
          connectionMessage := e.details,
          version := "", calls := ["/api/authentication/validate"] }
    | .text _ =>
        { result := false, connected := false,
          connectionMessage := "Invalid authentication response from SonarQube",
          version := "", calls := ["/api/authentication/validate"] }
    | .dict valid _ =>
        if !valid then
          { result := false, connected := false,
            connectionMessage := "Invalid authentication response from SonarQube",
            version := "", calls := ["/api/authentication/validate"] }
        else
          let msg := match env.userResp with
            | .dict _ login =>
                "Connected to SonarQube server at " ++ baseUrl ++
                  ". Authenticated as " ++ login.getD "unknown user"
            | _ => "Connected to SonarQube server at " ++ baseUrl
          let ver := match env.versionResp with
            | .text s => s
            | _ => ""
          { result := true, connected := false, connectionMessage := msg,
            version := ver,
            calls := ["/api/authentication/validate", "/api/users/current",
                      "/api/server/version"] }

end SonarQubeBase

namespace RequestsClient

/-- Embeds `SonarQubeClient.validate_connection` of `src/client/client.py`
(lines 88-115).  This validator only tests for an `error` key in the
auth-check response (no `valid`-flag test) and makes no server-version
call; dictionary-shaped responses are assumed for the membership tests. -/
def validateConnection (baseUrl token : String)
    (authResp userResp : ApiResp) : ValidationOutcome :=
  if baseUrl = "" ∨ token = "" then
    { result := false, connected := false,
      connectionMessage := "Missing SONARQUBE_URL or SONARQUBE_TOKEN",
      version := "", calls := [] }
  else
    match authResp with
    | .errorDict e =>
        { result := false, connected := false,
          connectionMessage := e.details,
          version := "", calls := ["/api/authentication/validate"] }
    | _ =>
        let msg := match userResp with
          | .dict _ login =>
              "Connected to SonarQube server at " ++ baseUrl ++
                ". Authenticated as " ++ login.getD "unknown user"
          | _ => "Connected to SonarQube server at " ++ baseUrl
        { result := true, connected := true, connectionMessage := msg,
          version := "",
          calls := ["/api/authentication/validate", "/api/users/current"] }

end RequestsClient

/-- A query-parameter value: the Python code places strings and integers in
the outgoing parameter containers. -/
inductive Param where
  | str (s : String)
  | int (n : Int)
deriving DecidableEq, Repr

/-- An optional entry of a parameter container: Python builds the container
with possibly-`None` values and then filters `None` out (`if v is not
None`), which keeps insertion order; `optEntry` reproduces one such slot. -/
def optEntry (k : String) (v : Option Param) : List (String × Param) :=
  match v with
  | none => []
  | some x => [(k, x)]

/-- Python `x.upper() if x else None` / `x.lower() if x else None` on an
optional string: the empty string is falsy and becomes `None`. -/
def truthyMap (f : String → String) (v : Option String) : Option Param :=
  v.bind fun s => if s = "" then none else some (.str (f s))

/-- Python `str(b).lower()` on a boolean. -/
def pyBoolStr (b : Bool) : String :=
  if b then "true" else "false"

namespace SonarQubeIssue

/-- The optional filters of `SonarQubeIssue.get_issues`
(`src/sonarqube/issue.py`). -/
structure IssueFilters where
  additionalFields : Option String := none
  assigned : Option Bool := none
  assignees : Option String := none
  authors : Option String := none
  branch : Option String := none
  components : Option String := none
  issueStatuses : Option String := none
  issues : Option String := none
  resolutions : Option String := none
  resolved : Option Bool := none
  scopes : Option String := none
  severities : Option String := none
  tags : Option String := none
  types : Option String := none
deriving DecidableEq, Repr

/-- Embeds the pagination clamping of `SonarQubeIssue.get_issues`
(`src/sonarqube/issue.py` lines 52-62): page below 1 becomes 1 with an
error log, page size below 1 becomes the default 100 with an error log,
page size above 500 becomes 500 with a warning log.  Returns the effective
page, the effective page size, and the logged messages in order. -/
def clampPaging (page pageSize : Int) : Int × Int × List String :=
  let p := if page < 1 then (1 : Int) else page
  let l1 := if page < 1 then ["page must be positive integers"] else []
  let ps1 := if pageSize < 1 then (100 : Int) else pageSize
  let l2 := if pageSize < 1 then ["page_size must be positive integers"] else []
  let ps := if ps1 > 500 then (500 : Int) else ps1
  let l3 := if ps1 > 500 then ["Page size capped at 500 by SonarQube API"] else []
  (p, ps, l1 ++ l2 ++ l3)

/-- Embeds the duplicate-key author parameters of
`SonarQubeIssue.get_issues` (`src/sonarqube/issue.py` lines 88-90): a
truthy comma-separated author string is split and appended as repeated
`author` entries. -/
def authorParams (authors : Option String) : List (String × Param) :=
  match authors with
  | none => []
  | some a =>
      if a = "" then []
      else (a.splitOn ",").map fun x => ("author", Param.str x)

/-- Embeds the request assembly of `SonarQubeIssue.get_issues`
(`src/sonarqube/issue.py` lines 52-93): clamps pagination, builds the
ordered parameter list (duplicate `author` keys appended last), and drops
absent values.  Returns the outgoing parameter list and the log
messages. -/
def getIssues (organization : Option String) (f : IssueFilters)
    (page pageSize : Int) : List (String × Param) × List String :=
  let c := clampPaging page pageSize
  (optEntry "additionalFields" (truthyMap String.toLower f.additionalFields) ++
   optEntry "assigned" (f.assigned.map fun b => .str (pyBoolStr b)) ++
   optEntry "assignees" (f.assignees.map .str) ++
   optEntry "branch" (f.branch.map .str) ++
   optEntry "components" (f.components.map .str) ++
   optEntry "issueStatuses" (truthyMap String.toUpper f.issueStatuses) ++
   optEntry "issues" (f.issues.map .str) ++
   optEntry "organization" (organization.map .str) ++
   [("p", .int c.1), ("ps", .int c.2.1)] ++
   optEntry "resolutions" (truthyMap String.toUpper f.resolutions) ++
   optEntry "resolved" (f.resolved.map fun b => .str (pyBoolStr b)) ++
   optEntry "scopes" (truthyMap String.toUpper f.scopes) ++
   optEntry "severities" (truthyMap String.toUpper f.severities) ++
   optEntry "tags" (f.tags.map .str) ++
   optEntry "types" (truthyMap String.toUpper f.types) ++
   authorParams f.authors,
   c.2.2)

end SonarQubeIssue

namespace SonarQubeRule

/-- Embeds the pagination clamping of `SonarQubeRule.get_rules`
(`src/sonarqube/rule.py` lines 34-44): page below 1 becomes 1, page size
below 1 becomes the default 20, page size above 20 becomes 20. -/
def clampPaging (page pageSize : Int) : Int × Int × List String :=
  let p := if page < 1 then (1 : Int) else page
  let l1 := if page < 1 then ["page must be positive integers"] else []
  let ps1 := if pageSize < 1 then (20 : Int) else pageSize
  let l2 := if pageSize < 1 then ["page_size must be positive integers"] else []
  let ps := if ps1 > 20 then (20 : Int) else ps1
  let l3 := if ps1 > 20 then ["Page size capped at 20"] else []
  (p, ps, l1 ++ l2 ++ l3)

/-- Embeds the request assembly of `SonarQubeRule.get_rules`
(`src/sonarqube/rule.py` lines 34-58). -/
def getRules (severities statuses languages types : Option String)
    (page pageSize : Int) : List (String × Param) × List String :=
  let c := clampPaging page pageSize
  ([("p", .int c.1), ("ps", .int c.2.1)] ++
   optEntry "severities" (truthyMap String.toUpper severities) ++
   optEntry "statuses" (truthyMap String.toUpper statuses) ++
   optEntry "languages" (truthyMap String.toLower languages) ++
   optEntry "types" (truthyMap String.toUpper types),
   c.2.2)

end SonarQubeRule

namespace SonarQubeProject

/-- Embeds the pagination clamping of `SonarQubeProject.list_projects`
(`src/sonarqube/project.py` lines 30-40): page below 1 becomes 1, page
size below 1 becomes the default 100, page size above 500 becomes 500. -/
def clampPaging (page pageSize : Int) : Int × Int × List String :=
  let p := if page < 1 then (1 : Int) else page
  let l1 := if page < 1 then ["page must be positive integers"] else []
  let ps1 := if pageSize < 1 then (100 : Int) else pageSize
  let l2 := if pageSize < 1 then ["page_size must be positive integers"] else []
  let ps := if ps1 > 500 then (500 : Int) else ps1
  let l3 := if ps1 > 500 then ["Page size capped at 500 by SonarQube API"] else []
  (p, ps, l1 ++ l2 ++ l3)

/-- Embeds the request assembly of `SonarQubeProject.list_projects`
(`src/sonarqube/project.py` lines 30-55). -/
def listProjects (organization : Option String)
    (analyzedBefore search projects : Option String)
    (page pageSize : Int) : List (String × Param) × List String :=
  let c := clampPaging page pageSize
  (optEntry "analyzedBefore" (analyzedBefore.map .str) ++
   optEntry "organization" (organization.map .str) ++
   [("p", .int c.1), ("ps", .int c.2.1)] ++
   optEntry "q" (search.map .str) ++
   optEntry "projects" (projects.map .str),
   c.2.2)

end SonarQubeProject

namespace SonarQubeSource

/-- Embeds the line-range normalisation shared by
`SonarQubeSource.get_source` (`src/sonarqube/source.py` lines 30-39) and
`SonarQubeSource.get_scm_info` (lines 78-87), which
`SonarQubeClient.get_source` / `get_scm_info` in `src/sonarqube/client.py`
(lines 1034-1043 and 1082-1091) repeat verbatim: a provided start below 1
is dropped; then a provided end below 1, or below the (surviving) start,
drops both start and end. -/
def normalizeRange (start e : Option Int) : Option Int × Option Int :=
  let start :=
    match start with
    | some s => if s < 1 then none else some s
    | none => none
  match e with
  | some v =>
      if v < 1 then (none, none)
      else
        match start with
        | some s => if v < s then (none, none) else (some s, some v)
        | none => (none, some v)
  | none => (start, none)

/-- Embeds `SonarQubeSource.get_source` of `src/sonarqube/source.py`
(lines 10-50): an empty file key is an immediate invalid-input error;
otherwise the range is normalised and the request is sent with the
surviving parameters (the returned list is what reaches
`_make_request`). -/
def getSource (fileKey : String) (start e : Option Int) :
    Except ErrorDescriptor (List (String × Param)) :=
  if fileKey = "" then
    .error ⟨"Invalid parameters", "File key must not be empty"⟩
  else
    let r := normalizeRange start e
    .ok ([("key", .str fileKey)] ++
         optEntry "from" (r.1.map .int) ++
         optEntry "to" (r.2.map .int))

/-- Embeds `SonarQubeSource.get_scm_info` of `src/sonarqube/source.py`
(lines 52-105): same validation and range normalisation as `get_source`,
with the always-present `commits_by_line` parameter appended. -/
def getScmInfo (fileKey : String) (start e : Option Int)
    (commitsByLine : Bool) :
    Except ErrorDescriptor (List (String × Param)) :=
  if fileKey = "" then
    .error ⟨"Invalid parameters", "File key must not be empty"⟩
  else
    let r := normalizeRange start e
    .ok ([("key", .str fileKey)] ++
         optEntry "from" (r.1.map .int) ++
         optEntry "to" (r.2.map .int) ++
         [("commits_by_line", .str (pyBoolStr commitsByLine))])

end SonarQubeSource

namespace SonarqubeClient

/-- Embeds `SonarQubeClient.get_source` of `src/sonarqube/client.py`
(lines 1014-1054), whose validation and range normalisation are identical
to `SonarQubeSource.get_source`. -/
def getSource (fileKey : String) (start e : Option Int) :
    Except ErrorDescriptor (List (String × Param)) :=
  if fileKey = "" then
    .error ⟨"Invalid parameters", "File key must not be empty"⟩
  else
    let r := SonarQubeSource.normalizeRange start e
    .ok ([("key", .str fileKey)] ++
         optEntry "from" (r.1.map .int) ++
         optEntry "to" (r.2.map .int))

end SonarqubeClient

/-- Embeds the composite component-key construction used by every
file-addressed tool: `file_key = f"{project_key}:{file_path}"`
(`src/tools/source.py` lines 36, 76, 106 and `src/server.py` lines 726,
766, 796). -/
def componentKey (projectKey filePath : String) : String :=
  projectKey ++ ":" ++ filePath

namespace Aggregator

/-- One line-tagged code fragment of a snippet response
(`sources: [{line, code}, ...]`). -/
structure SnippetFragment where
  line : Nat
  code : String
deriving DecidableEq, Repr

/-- One issue as returned by the issue-search endpoint: the fields the
aggregator extracts (key, message, severity, status, line, rule key). -/
structure IssueData where
  key : String
  message : String
  severity : String
  status : String
  line : Option Nat
  rule : String
deriving DecidableEq, Repr

/-- The fixed subset of rule fields the aggregator copies into the rule sub-record of an issue: key, name, description sections, severity, type, impact
tags. -/
structure RuleDetail where
  key : String
  name : String
  descriptionSections : List String
  severity : String
  ruleType : String
  impacts : List String
deriving DecidableEq, Repr

/-- The source-snippet sub-record of an issue: inferred start and end lines and
the ordered list of line-tagged fragments; initially (and on failure or an
empty snippet set) `{start: none, end: none, code: empty}`. -/
structure SnippetRecord where
  startLine : Option Nat
  endLine : Option Nat
  code : List SnippetFragment
deriving DecidableEq, Repr

/-- The empty snippet sub-record. -/
def emptySnippet : SnippetRecord := ⟨none, none, []⟩

/-- An issue record of the aggregated report: the extracted issue fields
plus the rule sub-record (`none` when empty) and the snippet
sub-record. -/
structure IssueRecord where
  key : String
  message : String
  severity : String
  status : String
  line : Option Nat
  rule : String
  ruleDetail : Option RuleDetail
  snippet : SnippetRecord
deriving DecidableEq, Repr

/-- The aggregated file-issue report: project key, file path, full raw
source (possibly empty), ordered issue records, the remote-reported total,
and the accumulated error strings. -/
structure FileIssuesReport where
  projectKey : String
  filePath : String
  fullSource : String
  issues : List IssueRecord
  totalIssues : Nat
  errors : List String
deriving DecidableEq, Repr

/-- The behaviour of the remote server during one aggregator run: the result of
the raw-source fetch for the component, of the issue search restricted to
the component (the issue page and the remote-reported total), of each
rule-detail lookup by rule key, and of each snippet lookup by issue key (a
mapping from component key to line-tagged fragments).  An `Except.error`
value is the detail string of the error descriptor for the failing call. -/
structure RemoteEnv where
  sourceResult : Except String String
  issuesResult : Except String (List IssueData × Nat)
  ruleResult : String → Except String RuleDetail
  snippetResult : String → Except String (List (String × List SnippetFragment))

/-- Modelled from the spec: the snippet sub-record computed from the
line-tagged fragments found under the component key — the start line is
the minimum line number present and the end line the maximum (spec §4.4
step 5b: "compute the start line of the snippet as the minimum line number
present and end line as the maximum (not simply the first/last array
element ...)"). -/
def snippetOfFragments (frags : List SnippetFragment) : SnippetRecord :=
  { startLine := (frags.map SnippetFragment.line).min?,
    endLine := (frags.map SnippetFragment.line).max?,
    code := frags }

/-- Modelled from the spec: the per-issue snippet lookup of the aggregator
(spec §4.4 step 5b).  On a failed lookup the sub-record stays empty and
the failure is reported; when the snippet payload has no entry for the
component key (an empty snippet set) the sub-record stays empty with no
error. -/
def processSnippet (componentKey : String)
    (snip : Except String (List (String × List SnippetFragment))) :
    SnippetRecord × List String :=
  match snip with
  | .error msg => (emptySnippet, [msg])
  | .ok m =>
      match m.lookup componentKey with
      | none => (emptySnippet, [])
      | some frags => (snippetOfFragments frags, [])

/-- Modelled from the spec: the per-issue rule-detail lookup including its
failure handling (spec §4.4 step 5a) — on a failed lookup the sub-record
stays empty and an error naming the rule key is produced. -/
def ruleLookup (env : RemoteEnv) (ruleKey : String) :
    Option RuleDetail × List String :=
  match env.ruleResult ruleKey with
  | .ok r => (some r, [])
  | .error msg =>
      (none, ["Failed to fetch rule details for " ++ ruleKey ++ ": " ++ msg])

/-- Modelled from the spec: the per-issue snippet lookup including its
failure handling (spec §4.4 step 5b) — on a failed lookup the sub-record
stays empty and an error naming the issue key is produced. -/
def snippetLookup (env : RemoteEnv) (ck issueKey : String) :
    SnippetRecord × List String :=
  match env.snippetResult issueKey with
  | .error msg =>
      (emptySnippet,
       ["Failed to fetch snippets for issue " ++ issueKey ++ ": " ++ msg])
  | .ok m => processSnippet ck (.ok m)

/-- Modelled from the spec: enrichment of one issue (spec §4.4 step 5),
absent from the repository sources (only the tool wrappers
`get_file_issues_information` in `src/server.py` lines 836-852 and
`src/tools/source.py` lines 148-168 exist).  The rule lookup fills the
rule sub-record or appends an error naming the rule key; the snippet
lookup fills the snippet sub-record or appends an error naming the issue
key; the issue record is produced regardless of any sub-lookup failure. -/
def enrichIssue (env : RemoteEnv) (ck : String) (i : IssueData) :
    IssueRecord × List String :=
  ({ key := i.key, message := i.message, severity := i.severity,
     status := i.status, line := i.line, rule := i.rule,
     ruleDetail := (ruleLookup env i.rule).1, snippet := (snippetLookup env ck i.key).1 },
   (ruleLookup env i.rule).2 ++ (snippetLookup env ck i.key).2)

/-- Modelled from the spec: the issue loop of the aggregator (spec §4.4 steps
5-6) — the record of each issue is appended to the issue sequence of the report and
its errors are appended to the error sequence, in order. -/
def processIssues (env : RemoteEnv) (ck : String) :
    List IssueData → List IssueRecord × List String
  | [] => ([], [])
  | i :: rest =>
      ((enrichIssue env ck i).1 :: (processIssues env ck rest).1,
       (enrichIssue env ck i).2 ++ (processIssues env ck rest).2)

/-- Modelled from the spec: the optional raw-source fetch of the aggregator
(spec §4.4 step 3) — on error the full source stays empty and a
descriptive error string is recorded; when source inclusion is not
requested nothing is fetched and no error is recorded. -/
def sourceFetch (env : RemoteEnv) (ck : String) (includeSource : Bool) :
    String × List String :=
  if includeSource then
    match env.sourceResult with
    | .ok t => (t, [])
    | .error msg => ("", ["Failed to fetch source for " ++ ck ++ ": " ++ msg])
  else ("", [])

/-- Modelled from the spec: the composite file-issue aggregation operation
`get_file_issues_information` (spec §4.4), whose implementation is absent
from the repository sources.  Empty project key or file path is an
immediate validation error (step 0); the component key is the colon-join
of project key and file path (step 1); the optional raw-source fetch
records its failure without aborting (step 3); a failing issue search
returns the report early with an empty issue sequence (step 4 and the
failure-semantics paragraph); otherwise every issue is enriched and kept
(step 5), and the remote-reported total is recorded. -/
def getFileIssuesInformation (env : RemoteEnv)
    (projectKey filePath : String) (includeSource : Bool) :
    Except ErrorDescriptor FileIssuesReport :=
  if projectKey = "" then
    .error ⟨"Invalid parameters", "project_key must be a non-empty string"⟩
  else if filePath = "" then
    .error ⟨"Invalid parameters", "file_path must be a non-empty string"⟩
  else
    let ck := componentKey projectKey filePath
    let sf := sourceFetch env ck includeSource
    match env.issuesResult with
    | .error msg =>
        .ok { projectKey := projectKey, filePath := filePath,
              fullSource := sf.1, issues := [], totalIssues := 0,
              errors := sf.2 ++ ["Failed to fetch issues for " ++ ck ++ ": " ++ msg] }
    | .ok (is, total) =>
        .ok { projectKey := projectKey, filePath := filePath,
              fullSource := sf.1, issues := (processIssues env ck is).1,
              totalIssues := total,
              errors := sf.2 ++ (processIssues env ck is).2 }

end Aggregator

/-- C5: a transport-client call made while the readiness flag is false and
that is not part of the validation sequence (health check enabled) returns
the not-ready error descriptor immediately, and no network request is
issued (the second component of the result is `false`), for both clients
that carry a readiness flag. -/
theorem C5_not_ready_no_network (msg : String) (tmo : Nat)
    (outcome : HttpOutcome) :
    SonarqubeClient.makeRequest false true msg tmo outcome =
      (.errorDict ⟨"SonarQube client is not healthy", msg⟩, false) ∧
    RequestsClient.makeRequest false true msg outcome =
      (.errorDict ⟨"SonarQube client is not healthy", msg⟩, false) :=
  ⟨rfl, rfl⟩

/-- C6: a connection-validation attempt with an empty base URL or an empty
token returns failure, leaves the readiness flag false, and issues no
network call at all — in particular no auth-check call — in all three
validator implementations. -/
theorem C6_empty_credentials_no_auth_call (baseUrl token : String)
    (env : ValidationEnv) (authResp userResp : ApiResp)
    (h : baseUrl = "" ∨ token = "") :
    SonarqubeClient.validateConnection baseUrl token env =
      { result := false, connected := false,
        connectionMessage := "Missing SONARQUBE_URL or SONARQUBE_TOKEN",
        version := "", calls := [] } ∧
    SonarQubeBase.validateConnection baseUrl token env =
      { result := false, connected := false,
        connectionMessage := "Missing SONARQUBE_URL or SONARQUBE_TOKEN",
        version := "", calls := [] } ∧
    RequestsClient.validateConnection baseUrl token authResp userResp =
      { result := false, connected := false,
        connectionMessage := "Missing SONARQUBE_URL or SONARQUBE_TOKEN",
        version := "", calls := [] } := by
  unfold SonarqubeClient.validateConnection SonarQubeBase.validateConnection
    RequestsClient.validateConnection
  rw [if_pos h, if_pos h, if_pos h]
  exact ⟨rfl, rfl, rfl⟩

/-- Witness for C6 at the concrete input of an empty token. -/
theorem C6_empty_credentials_no_auth_call_witness :
    ("http://localhost:9000" = "" ∨ "" = "") ∧
    SonarqubeClient.validateConnection "http://localhost:9000" ""
        ⟨.dict true none, .dict true none, .text "10.3"⟩ =
      { result := false, connected := false,
        connectionMessage := "Missing SONARQUBE_URL or SONARQUBE_TOKEN",
        version := "", calls := [] } :=
  ⟨Or.inr rfl,
   (C6_empty_credentials_no_auth_call "http://localhost:9000" ""
      ⟨.dict true none, .dict true none, .text "10.3"⟩
      (.dict true none) (.dict true none) (Or.inr rfl)).1⟩

/-- C3 fails as stated: the async base transport answers an HTTP 500 on a
non-health-check call by re-raising the status exception, not by returning
an error descriptor. -/
theorem C3_counterexample :
    SonarQubeBase.makeRequest false 10
        (.statusError 500 "Internal Server Error") = .raised ∧
    (SonarQubeBase.makeRequest false 10
        (.statusError 500 "Internal Server Error")).isErrorDict = false := by
  constructor <;> rfl

/-- C3 amended: on an HTTP 4xx/5xx answer, the synchronous httpx client
and the requests-based client always return an error descriptor carrying
the numeric status and the server-provided detail; the async base
transport does so except for statuses 500, 502, 503 and 504 on
non-health-check calls, which it re-raises. -/
theorem C3_http_error_descriptor (code : Nat) (text connMsg : String)
    (tmo : Nat) (hc : Bool) (_hcode : 400 ≤ code ∧ code ≤ 599) :
    (SonarqubeClient.makeRequest true hc connMsg tmo
        (.statusError code text)).1 =
      .errorDict ⟨"HTTP " ++ toString code,
        "HTTP " ++ toString code ++ ": " ++ text⟩ ∧
    (RequestsClient.makeRequest true hc connMsg (.statusError code text)).1 =
      .errorDict ⟨"HTTP " ++ toString code, text⟩ ∧
    (code ∉ ([500, 502, 503, 504] : List Nat) ∨ hc = true →
      SonarQubeBase.makeRequest hc tmo (.statusError code text) =
        .errorDict ⟨"HTTP " ++ toString code,
          "HTTP " ++ toString code ++ ": " ++ text⟩) ∧
    (code ∈ ([500, 502, 503, 504] : List Nat) → hc = false →
      SonarQubeBase.makeRequest hc tmo (.statusError code text) = .raised) := by
  refine ⟨?_, ?_, ?_, ?_⟩
  · cases hc <;> rfl
  · cases hc <;> rfl
  · intro h
    simp only [SonarQubeBase.makeRequest]
    rw [if_pos h]
  · intro h1 h2
    subst h2
    simp only [SonarQubeBase.makeRequest]
    have hn : ¬(code ∉ ([500, 502, 503, 504] : List Nat) ∨
        (false : Bool) = true) := by
      simp [h1]
    rw [if_neg hn]

/-- Witness for C3 at status 404. -/
theorem C3_http_error_descriptor_witness :
    (400 ≤ 404 ∧ 404 ≤ 599) ∧
    (SonarqubeClient.makeRequest true false "" 10
        (.statusError 404 "Not Found")).1 =
      .errorDict ⟨"HTTP " ++ toString 404,
        "HTTP " ++ toString 404 ++ ": " ++ "Not Found"⟩ :=
  ⟨⟨by omega, by omega⟩,
   (C3_http_error_descriptor 404 "Not Found" "" 10 false
      ⟨by omega, by omega⟩).1⟩

/-- C4 fails as stated: a timed-out call produces an error descriptor in
the synchronous httpx client but escapes as an exception from the async
base transport, so the handling is not applied consistently by every
transport client. -/
theorem C4_counterexample :
    (SonarqubeClient.makeRequest true false "m" 10 .timeout).1 =
      .errorDict ⟨"Timeout", "Request timed out after 10 seconds"⟩ ∧
    SonarQubeBase.makeRequest false 10 .timeout = .raised ∧
    (SonarqubeClient.makeRequest true false "m" 10 .timeout).1 ≠
      SonarQubeBase.makeRequest false 10 .timeout := by
  refine ⟨?_, rfl, ?_⟩
  · rfl
  · decide

/-- C4 amended: each transport client handles timed-out calls uniformly
within itself, but the chosen handling differs between clients: the
synchronous httpx client returns a Timeout error descriptor, the
requests-based client returns a Request-failed descriptor (its timeout
exception is a subclass of the generic request exception), and the async
base transport re-raises. -/
theorem C4_timeout_per_client (connMsg : String) (tmo : Nat) (hc : Bool) :
    (SonarqubeClient.makeRequest true hc connMsg tmo .timeout).1 =
      .errorDict ⟨"Timeout",
        "Request timed out after " ++ toString tmo ++ " seconds"⟩ ∧
    (RequestsClient.makeRequest true hc connMsg .timeout).1 =
      .errorDict ⟨"Request failed", "timed out"⟩ ∧
    SonarQubeBase.makeRequest hc tmo .timeout = .raised := by
  refine ⟨?_, ?_, rfl⟩ <;> cases hc <;> rfl

/-- Helper: membership in an optional parameter entry. -/
theorem mem_optEntry {p : String × Param} {k : String} {v : Option Param} :
    p ∈ optEntry k v ↔ ∃ x, v = some x ∧ p = (k, x) := by
  cases v <;> simp [optEntry]

/-- C10: for a non-empty file key, an out-of-range line window is silently
normalised rather than rejected — `get_source` and `get_scm_info` always
send the request (no invalid-input error descriptor); a start below 1 is
dropped, an end below 1 or below the provided start drops both ends, and
the outgoing parameters only ever carry `from` / `to` entries for range
bounds that survived normalisation. -/
theorem C10_range_normalisation (fileKey : String) (start e : Option Int)
    (cbl : Bool) (hk : fileKey ≠ "") :
    (∃ ps, SonarQubeSource.getSource fileKey start e = .ok ps) ∧
    (∃ ps, SonarQubeSource.getScmInfo fileKey start e cbl = .ok ps) ∧
    (∃ ps, SonarqubeClient.getSource fileKey start e = .ok ps) ∧
    (∀ s, start = some s → s < 1 →
        (SonarQubeSource.normalizeRange start e).1 = none) ∧
    (∀ v, e = some v → (v < 1 ∨ ∃ s, start = some s ∧ v < s) →
        SonarQubeSource.normalizeRange start e = (none, none)) ∧
    (∀ ps, SonarQubeSource.getSource fileKey start e = .ok ps →
        ∀ kv ∈ ps, kv.1 = "key" ∨
          (kv.1 = "from" ∧ (SonarQubeSource.normalizeRange start e).1.isSome) ∨
          (kv.1 = "to" ∧ (SonarQubeSource.normalizeRange start e).2.isSome)) := by
  refine ⟨?_, ?_, ?_, ?_, ?_, ?_⟩
  · unfold SonarQubeSource.getSource
    rw [if_neg hk]
    exact ⟨_, rfl⟩
  · unfold SonarQubeSource.getScmInfo
    rw [if_neg hk]
    exact ⟨_, rfl⟩
  · unfold SonarqubeClient.getSource
    rw [if_neg hk]
    exact ⟨_, rfl⟩
  · intro s hs hlt
    subst hs
    cases e with
    | none => simp [SonarQubeSource.normalizeRange, hlt]
    | some v =>
        simp only [SonarQubeSource.normalizeRange, if_pos hlt]
        split <;> rfl
  · intro v hv hcond
    subst hv
    rcases hcond with h | ⟨s, hs, hvs⟩
    · cases start with
      | none => simp [SonarQubeSource.normalizeRange, h]
      | some s => simp [SonarQubeSource.normalizeRange, h]
    · subst hs
      by_cases h1 : s < 1
      · have hv1 : v < 1 := by omega
        simp [SonarQubeSource.normalizeRange, hv1]
      · by_cases h2 : v < 1
        · simp [SonarQubeSource.normalizeRange, h2]
        · simp [SonarQubeSource.normalizeRange, h1, h2, hvs]
  · intro ps hps kv hkv
    unfold SonarQubeSource.getSource at hps
    rw [if_neg hk] at hps
    injection hps with hps
    subst hps
    simp only [List.mem_append, List.mem_singleton, mem_optEntry] at hkv
    rcases hkv with (h | ⟨x, hx, hkvx⟩) | ⟨x, hx, hkvx⟩
    · exact Or.inl (by rw [h])
    · refine Or.inr (Or.inl ⟨by rw [hkvx], ?_⟩)
      rcases Option.map_eq_some'.mp hx with ⟨y, hy, _⟩
      simp [hy]
    · refine Or.inr (Or.inr ⟨by rw [hkvx], ?_⟩)
      rcases Option.map_eq_some'.mp hx with ⟨y, hy, _⟩
      simp [hy]

/-- Witness for C10 at the concrete input start 0, end 5. -/
theorem C10_range_normalisation_witness :
    ("k" : String) ≠ "" ∧
    (∃ ps, SonarQubeSource.getSource "k" (some 0) (some 5) = .ok ps) ∧
    (SonarQubeSource.normalizeRange (some 0) (some 5)).1 = none :=
  ⟨by decide,
   (C10_range_normalisation "k" (some 0) (some 5) false (by decide)).1,
   (C10_range_normalisation "k" (some 0) (some 5) false (by decide)).2.2.2.1
     0 rfl (by omega)⟩

/-- Helper: every entry of the author-parameter tail has key `author`. -/
theorem fst_of_mem_authorParams {p : String × Param} {a : Option String}
    (h : p ∈ SonarQubeIssue.authorParams a) : p.1 = "author" := by
  cases a with
  | none => simp [SonarQubeIssue.authorParams] at h
  | some s =>
      simp only [SonarQubeIssue.authorParams] at h
      split at h
      · simp at h
      · rcases List.mem_map.mp h with ⟨x, _, hx⟩
        rw [← hx]

/-- Helper: the value of every `ps` entry sent by the issue-search
operation is the clamped page size. -/
theorem ps_entry_getIssues (org : Option String)
    (f : SonarQubeIssue.IssueFilters) (page pageSize : Int) (v : Param)
    (hv : ("ps", v) ∈ (SonarQubeIssue.getIssues org f page pageSize).1) :
    v = .int (SonarQubeIssue.clampPaging page pageSize).2.1 := by
  simp [SonarQubeIssue.getIssues, mem_optEntry] at hv
  rcases hv with hval | h
  · exact hval
  · have hk := fst_of_mem_authorParams h
    simp at hk

/-- Helper: the value of every `p` entry sent by the issue-search
operation is the clamped page. -/
theorem p_entry_getIssues (org : Option String)
    (f : SonarQubeIssue.IssueFilters) (page pageSize : Int) (v : Param)
    (hv : ("p", v) ∈ (SonarQubeIssue.getIssues org f page pageSize).1) :
    v = .int (SonarQubeIssue.clampPaging page pageSize).1 := by
  simp [SonarQubeIssue.getIssues, mem_optEntry] at hv
  rcases hv with hval | h
  · exact hval
  · have hk := fst_of_mem_authorParams h
    simp at hk

/-- Helper: the value of every `ps` entry sent by the rule-search
operation is the clamped page size. -/
theorem ps_entry_getRules (sev st lang ty : Option String)
    (page pageSize : Int) (v : Param)
    (hv : ("ps", v) ∈ (SonarQubeRule.getRules sev st lang ty page pageSize).1) :
    v = .int (SonarQubeRule.clampPaging page pageSize).2.1 := by
  simp [SonarQubeRule.getRules, mem_optEntry] at hv
  exact hv

/-- Helper: the value of every `p` entry sent by the project-listing
operation is the clamped page. -/
theorem p_entry_listProjects (org ab q pr : Option String)
    (page pageSize : Int) (v : Param)
    (hv : ("p", v) ∈ (SonarQubeProject.listProjects org ab q pr page pageSize).1) :
    v = .int (SonarQubeProject.clampPaging page pageSize).1 := by
  simp [SonarQubeProject.listProjects, mem_optEntry] at hv
  exact hv

/-- Helper: the value of every `ps` entry sent by the project-listing
operation is the clamped page size. -/
theorem ps_entry_listProjects (org ab q pr : Option String)
    (page pageSize : Int) (v : Param)
    (hv : ("ps", v) ∈ (SonarQubeProject.listProjects org ab q pr page pageSize).1) :
    v = .int (SonarQubeProject.clampPaging page pageSize).2.1 := by
  simp [SonarQubeProject.listProjects, mem_optEntry] at hv
  exact hv

/-- Helper: closed form of the effective page and page size of the
issue-search clamping. -/
theorem clampPaging_issue_eq (page ps : Int) :
    (SonarQubeIssue.clampPaging page ps).1 = (if page < 1 then 1 else page) ∧
    (SonarQubeIssue.clampPaging page ps).2.1 =
      (if (if ps < 1 then 100 else ps) > 500 then 500
       else (if ps < 1 then 100 else ps)) :=
  ⟨rfl, rfl⟩

/-- Helper: closed form of the effective page and page size of the
rule-search clamping. -/
theorem clampPaging_rule_eq (page ps : Int) :
    (SonarQubeRule.clampPaging page ps).1 = (if page < 1 then 1 else page) ∧
    (SonarQubeRule.clampPaging page ps).2.1 =
      (if (if ps < 1 then 20 else ps) > 20 then 20
       else (if ps < 1 then 20 else ps)) :=
  ⟨rfl, rfl⟩

/-- Helper: closed form of the effective page and page size of the
project-listing clamping. -/
theorem clampPaging_project_eq (page ps : Int) :
    (SonarQubeProject.clampPaging page ps).1 = (if page < 1 then 1 else page) ∧
    (SonarQubeProject.clampPaging page ps).2.1 =
      (if (if ps < 1 then 100 else ps) > 500 then 500
       else (if ps < 1 then 100 else ps)) :=
  ⟨rfl, rfl⟩

/-- C8: every page_size above the documented ceiling is clamped to the
ceiling in the outgoing request parameters (500 for issue search, 20 for
rule search), and for any input whatsoever the effective page_size never
exceeds the ceiling. -/
theorem C8_page_size_ceiling (org : Option String)
    (f : SonarQubeIssue.IssueFilters) (sev st lang ty : Option String)
    (page psI psR : Int) (hI : 500 < psI) (hR : 20 < psR) :
    (∀ v, ("ps", v) ∈ (SonarQubeIssue.getIssues org f page psI).1 →
        v = .int 500) ∧
    (∀ v, ("ps", v) ∈ (SonarQubeRule.getRules sev st lang ty page psR).1 →
        v = .int 20) ∧
    (∀ ps n, ("ps", .int n) ∈ (SonarQubeIssue.getIssues org f page ps).1 →
        n ≤ 500) ∧
    (∀ ps n, ("ps", .int n) ∈ (SonarQubeRule.getRules sev st lang ty page ps).1 →
        n ≤ 20) := by
  refine ⟨?_, ?_, ?_, ?_⟩
  · intro v hv
    rw [ps_entry_getIssues org f page psI v hv,
      (clampPaging_issue_eq page psI).2]
    have h1 : ¬ psI < 1 := by omega
    rw [if_neg h1, if_pos hI]
  · intro v hv
    rw [ps_entry_getRules sev st lang ty page psR v hv,
      (clampPaging_rule_eq page psR).2]
    have h1 : ¬ psR < 1 := by omega
    rw [if_neg h1, if_pos hR]
  · intro ps n hn
    have h := ps_entry_getIssues org f page ps _ hn
    rw [(clampPaging_issue_eq page ps).2] at h
    have h2 : n = (if (if ps < 1 then 100 else ps) > 500 then 500
        else (if ps < 1 then 100 else ps)) := by
      cases h
      rfl
    rw [h2]
    split_ifs <;> omega
  · intro ps n hn
    have h := ps_entry_getRules sev st lang ty page ps _ hn
    rw [(clampPaging_rule_eq page ps).2] at h
    have h2 : n = (if (if ps < 1 then 20 else ps) > 20 then 20
        else (if ps < 1 then 20 else ps)) := by
      cases h
      rfl
    rw [h2]
    split_ifs <;> omega

/-- Witness for C8 at concrete page sizes 9999 for both endpoints. -/
theorem C8_page_size_ceiling_witness :
    ((500 : Int) < 9999 ∧ (20 : Int) < 9999) ∧
    (∀ v, ("ps", v) ∈ (SonarQubeIssue.getIssues none {} 1 9999).1 →
        v = .int 500) ∧
    ("ps", Param.int 500) ∈ (SonarQubeIssue.getIssues none {} 1 9999).1 ∧
    ("ps", Param.int 20) ∈
      (SonarQubeRule.getRules none none none none 1 9999).1 :=
  ⟨⟨by omega, by omega⟩,
   (C8_page_size_ceiling none {} none none none none 1 9999 9999
      (by omega) (by omega)).1,
   by decide, by decide⟩

/-- C9 fails as stated: a page_size of 0 is reset to the endpoint default
100, not to the claimed minimum 1, in the outgoing issue-search request. -/
theorem C9_counterexample :
    ("ps", Param.int 100) ∈ (SonarQubeIssue.getIssues none {} 1 0).1 ∧
    ("ps", Param.int 1) ∉ (SonarQubeIssue.getIssues none {} 1 0).1 := by
  constructor <;> decide

/-- C9 amended: for page below 1 the effective page in the outgoing
request is clamped to the minimum 1; for page_size below 1 the effective
page_size is reset to the endpoint default (100 for issue search and
project listing) — which satisfies page_size at least 1 but is not the
minimum 1 — and an error is logged for each out-of-range value. -/
theorem C9_below_minimum (org : Option String)
    (f : SonarQubeIssue.IssueFilters) (ab q pr : Option String)
    (page pageSize : Int) (hp : page < 1) (hps : pageSize < 1) :
    (∀ v, ("p", v) ∈ (SonarQubeIssue.getIssues org f page pageSize).1 →
        v = .int 1) ∧
    (∀ v, ("ps", v) ∈ (SonarQubeIssue.getIssues org f page pageSize).1 →
        v = .int 100) ∧
    "page must be positive integers" ∈
      (SonarQubeIssue.getIssues org f page pageSize).2 ∧
    "page_size must be positive integers" ∈
      (SonarQubeIssue.getIssues org f page pageSize).2 ∧
    (∀ v, ("p", v) ∈
        (SonarQubeProject.listProjects org ab q pr page pageSize).1 →
        v = .int 1) ∧
    (∀ v, ("ps", v) ∈
        (SonarQubeProject.listProjects org ab q pr page pageSize).1 →
        v = .int 100) ∧
    "page must be positive integers" ∈
      (SonarQubeProject.listProjects org ab q pr page pageSize).2 ∧
    "page_size must be positive integers" ∈
      (SonarQubeProject.listProjects org ab q pr page pageSize).2 := by
  have h100 : ¬ ((100 : Int) > 500) := by omega
  refine ⟨?_, ?_, ?_, ?_, ?_, ?_, ?_, ?_⟩
  · intro v hv
    rw [p_entry_getIssues org f page pageSize v hv,
      (clampPaging_issue_eq page pageSize).1, if_pos hp]
  · intro v hv
    rw [ps_entry_getIssues org f page pageSize v hv,
      (clampPaging_issue_eq page pageSize).2, if_pos hps, if_neg h100]
  · show _ ∈ (SonarQubeIssue.clampPaging page pageSize).2.2
    simp [SonarQubeIssue.clampPaging, hp, hps]
  · show _ ∈ (SonarQubeIssue.clampPaging page pageSize).2.2
    simp [SonarQubeIssue.clampPaging, hp, hps]
  · intro v hv
    rw [p_entry_listProjects org ab q pr page pageSize v hv,
      (clampPaging_project_eq page pageSize).1, if_pos hp]
  · intro v hv
    rw [ps_entry_listProjects org ab q pr page pageSize v hv,
      (clampPaging_project_eq page pageSize).2, if_pos hps, if_neg h100]
  · show _ ∈ (SonarQubeProject.clampPaging page pageSize).2.2
    simp [SonarQubeProject.clampPaging, hp, hps]
  · show _ ∈ (SonarQubeProject.clampPaging page pageSize).2.2
    simp [SonarQubeProject.clampPaging, hp, hps]

/-- Witness for C9 at page 0, page_size 0. -/
theorem C9_below_minimum_witness :
    ((0 : Int) < 1 ∧ (0 : Int) < 1) ∧
    (∀ v, ("ps", v) ∈ (SonarQubeIssue.getIssues none {} 0 0).1 →
        v = .int 100) ∧
    ("p", Param.int 1) ∈ (SonarQubeIssue.getIssues none {} 0 0).1 :=
  ⟨⟨by omega, by omega⟩,
   (C9_below_minimum none {} none none none 0 0
      (by omega) (by omega)).2.1,
   by decide⟩

namespace Aggregator

/-- Helper: the snippet sub-record produced by the snippet lookup always
has its start line equal to the minimum of its fragment line numbers and
its end line equal to the maximum. -/
theorem snippetLookup_minmax (env : RemoteEnv) (ck issueKey : String) :
    (snippetLookup env ck issueKey).1.startLine =
      ((snippetLookup env ck issueKey).1.code.map SnippetFragment.line).min? ∧
    (snippetLookup env ck issueKey).1.endLine =
      ((snippetLookup env ck issueKey).1.code.map SnippetFragment.line).max? := by
  unfold snippetLookup
  cases env.snippetResult issueKey with
  | error msg => simp [emptySnippet]
  | ok m =>
      simp only [processSnippet]
      cases m.lookup ck with
      | none => simp [emptySnippet]
      | some frags => simp [snippetOfFragments]

/-- Helper: the issue record produced by enrichment keeps the issue key,
and its snippet sub-record is the one computed by the snippet lookup. -/
theorem enrichIssue_fields (env : RemoteEnv) (ck : String) (i : IssueData) :
    ((enrichIssue env ck i).1).key = i.key ∧
    ((enrichIssue env ck i).1).snippet = (snippetLookup env ck i.key).1 ∧
    ((enrichIssue env ck i).1).ruleDetail = (ruleLookup env i.rule).1 :=
  ⟨rfl, rfl, rfl⟩

/-- Helper: a failed rule lookup leaves the rule sub-record empty and
produces an error naming the rule key. -/
theorem enrich_rule_error (env : RemoteEnv) (ck : String) (i : IssueData)
    (msg : String) (h : env.ruleResult i.rule = .error msg) :
    ((enrichIssue env ck i).1).ruleDetail = none ∧
    ("Failed to fetch rule details for " ++ i.rule ++ ": " ++ msg) ∈
      (enrichIssue env ck i).2 := by
  constructor
  · show (ruleLookup env i.rule).1 = none
    unfold ruleLookup
    rw [h]
  · show _ ∈ (ruleLookup env i.rule).2 ++ (snippetLookup env ck i.key).2
    unfold ruleLookup
    rw [h]
    simp

/-- Helper: a failed snippet lookup leaves the snippet sub-record empty
and produces an error naming the issue key. -/
theorem enrich_snippet_error (env : RemoteEnv) (ck : String) (i : IssueData)
    (msg : String) (h : env.snippetResult i.key = .error msg) :
    ((enrichIssue env ck i).1).snippet = emptySnippet ∧
    ("Failed to fetch snippets for issue " ++ i.key ++ ": " ++ msg) ∈
      (enrichIssue env ck i).2 := by
  constructor
  · show (snippetLookup env ck i.key).1 = emptySnippet
    unfold snippetLookup
    rw [h]
  · show _ ∈ (ruleLookup env i.rule).2 ++ (snippetLookup env ck i.key).2
    unfold snippetLookup
    rw [h]
    simp

/-- Helper: the issue loop produces exactly one record per issue. -/
theorem processIssues_length (env : RemoteEnv) (ck : String)
    (is : List IssueData) :
    (processIssues env ck is).1.length = is.length := by
  induction is with
  | nil => rfl
  | cons i rest ih => simp [processIssues, ih]

/-- Helper: the issue loop preserves the issue keys, in order. -/
theorem processIssues_keys (env : RemoteEnv) (ck : String)
    (is : List IssueData) :
    (processIssues env ck is).1.map IssueRecord.key =
      is.map IssueData.key := by
  induction is with
  | nil => rfl
  | cons i rest ih => simp [processIssues, ih, (enrichIssue_fields env ck i).1]

/-- Helper: the issue loop maps every snippet sub-record through the
snippet lookup, in order. -/
theorem processIssues_snippets (env : RemoteEnv) (ck : String)
    (is : List IssueData) :
    (processIssues env ck is).1.map IssueRecord.snippet =
      is.map fun i => (snippetLookup env ck i.key).1 := by
  induction is with
  | nil => rfl
  | cons i rest ih =>
      simp [processIssues, ih, (enrichIssue_fields env ck i).2.1]

/-- Helper: the issue loop distributes over list append — both the record
sequence and the error sequence of a longer run extend those of any
shorter run by appending, never by overwriting. -/
theorem processIssues_append (env : RemoteEnv) (ck : String)
    (pre suf : List IssueData) :
    processIssues env ck (pre ++ suf) =
      ((processIssues env ck pre).1 ++ (processIssues env ck suf).1,
       (processIssues env ck pre).2 ++ (processIssues env ck suf).2) := by
  induction pre with
  | nil => simp [processIssues]
  | cons i rest ih => simp [processIssues, ih]

/-- Helper: every record of the issue loop output is the enrichment of
some input issue. -/
theorem mem_processIssues_fst {env : RemoteEnv} {ck : String}
    {is : List IssueData} {rec : IssueRecord}
    (h : rec ∈ (processIssues env ck is).1) :
    ∃ i ∈ is, rec = (enrichIssue env ck i).1 := by
  induction is with
  | nil => simp [processIssues] at h
  | cons i rest ih =>
      simp only [processIssues, List.mem_cons] at h
      rcases h with h | h
      · exact ⟨i, List.mem_cons_self i rest, h⟩
      · rcases ih h with ⟨j, hj, hrec⟩
        exact ⟨j, List.mem_cons_of_mem i hj, hrec⟩

/-- Helper: the enrichment of every input issue appears in the issue loop
output, and its errors all appear in the accumulated error sequence. -/
theorem processIssues_mem (env : RemoteEnv) (ck : String)
    {i : IssueData} {is : List IssueData} (h : i ∈ is) :
    (enrichIssue env ck i).1 ∈ (processIssues env ck is).1 ∧
    ∀ e ∈ (enrichIssue env ck i).2, e ∈ (processIssues env ck is).2 := by
  induction is with
  | nil => simp at h
  | cons j rest ih =>
      rcases List.mem_cons.mp h with h | h
      · subst h
        constructor
        · simp [processIssues]
        · intro e he
          simp only [processIssues, List.mem_append]
          exact Or.inl he
      · constructor
        · simp only [processIssues, List.mem_cons]
          exact Or.inr (ih h).1
        · intro e he
          simp only [processIssues, List.mem_append]
          exact Or.inr ((ih h).2 e he)

/-- Helper: the aggregated report when the issue search succeeds. -/
theorem gfii_ok_eq (env : RemoteEnv) (pk fp : String) (incl : Bool)
    (is : List IssueData) (total : Nat)
    (hpk : pk ≠ "") (hfp : fp ≠ "")
    (hiss : env.issuesResult = .ok (is, total)) :
    getFileIssuesInformation env pk fp incl = .ok
      { projectKey := pk, filePath := fp,
        fullSource := (sourceFetch env (componentKey pk fp) incl).1,
        issues := (processIssues env (componentKey pk fp) is).1,
        totalIssues := total,
        errors := (sourceFetch env (componentKey pk fp) incl).2 ++
                  (processIssues env (componentKey pk fp) is).2 } := by
  unfold getFileIssuesInformation
  rw [if_neg hpk, if_neg hfp, hiss]

/-- Helper: the aggregated report when the issue search itself fails. -/
theorem gfii_error_eq (env : RemoteEnv) (pk fp : String) (incl : Bool)
    (msg : String) (hpk : pk ≠ "") (hfp : fp ≠ "")
    (hiss : env.issuesResult = .error msg) :
    getFileIssuesInformation env pk fp incl = .ok
      { projectKey := pk, filePath := fp,
        fullSource := (sourceFetch env (componentKey pk fp) incl).1,
        issues := [], totalIssues := 0,
        errors := (sourceFetch env (componentKey pk fp) incl).2 ++
          ["Failed to fetch issues for " ++ componentKey pk fp ++ ": " ++
            msg] } := by
  unfold getFileIssuesInformation
  rw [if_neg hpk, if_neg hfp, hiss]

end Aggregator

/-- C1: in every successful aggregator invocation, the snippet sub-record
of every returned issue has its start line equal to the minimum line
number over the returned line-tagged fragments and its end line equal to
the maximum; the membership characterisation (the start line is a member
of the line numbers and bounds them all from below, dually for the end
line) makes the computation independent of the order the fragments appear
in the response. -/
theorem C1_snippet_min_max (env : Aggregator.RemoteEnv) (pk fp : String)
    (incl : Bool) (rep : Aggregator.FileIssuesReport)
    (hrep : Aggregator.getFileIssuesInformation env pk fp incl = .ok rep)
    (rec : Aggregator.IssueRecord) (hrec : rec ∈ rep.issues) :
    rec.snippet.startLine =
      (rec.snippet.code.map Aggregator.SnippetFragment.line).min? ∧
    rec.snippet.endLine =
      (rec.snippet.code.map Aggregator.SnippetFragment.line).max? ∧
    (∀ s, rec.snippet.startLine = some s →
        s ∈ rec.snippet.code.map Aggregator.SnippetFragment.line ∧
        ∀ l ∈ rec.snippet.code.map Aggregator.SnippetFragment.line, s ≤ l) ∧
    (∀ t, rec.snippet.endLine = some t →
        t ∈ rec.snippet.code.map Aggregator.SnippetFragment.line ∧
        ∀ l ∈ rec.snippet.code.map Aggregator.SnippetFragment.line, l ≤ t) := by
  have hmm : rec.snippet.startLine =
      (rec.snippet.code.map Aggregator.SnippetFragment.line).min? ∧
      rec.snippet.endLine =
        (rec.snippet.code.map Aggregator.SnippetFragment.line).max? := by
    by_cases hpk : pk = ""
    · unfold Aggregator.getFileIssuesInformation at hrep
      rw [if_pos hpk] at hrep
      simp at hrep
    by_cases hfp : fp = ""
    · unfold Aggregator.getFileIssuesInformation at hrep
      rw [if_neg hpk, if_pos hfp] at hrep
      simp at hrep
    cases hiss : env.issuesResult with
    | error msg =>
        have h := (Aggregator.gfii_error_eq env pk fp incl msg hpk hfp
          hiss).symm.trans hrep
        injection h with h
        rw [← h] at hrec
        simp at hrec
    | ok p =>
        obtain ⟨is, total⟩ := p
        have h := (Aggregator.gfii_ok_eq env pk fp incl is total hpk hfp
          hiss).symm.trans hrep
        injection h with h
        rw [← h] at hrec
        simp only at hrec
        rcases Aggregator.mem_processIssues_fst hrec with ⟨i, _, hi⟩
        subst hi
        rw [(Aggregator.enrichIssue_fields env (componentKey pk fp) i).2.1]
        exact Aggregator.snippetLookup_minmax env (componentKey pk fp) i.key
  refine ⟨hmm.1, hmm.2, ?_, ?_⟩
  · intro v hs
    rw [hmm.1] at hs
    exact List.min?_eq_some_iff'.mp hs
  · intro t ht
    rw [hmm.2] at ht
    exact List.max?_eq_some_iff'.mp ht

/-- Concrete environment exercising C1: one issue whose snippet fragments
arrive with the deliberately out-of-order line numbers 40, 12, 25. -/
def c1RuleDetail : Aggregator.RuleDetail :=
  { key := "py:S100", name := "Rule", descriptionSections := [],
    severity := "MAJOR", ruleType := "CODE_SMELL", impacts := [] }

/-- The single remote issue of the C1 witness run. -/
def c1Issue : Aggregator.IssueData :=
  { key := "I1", message := "m", severity := "MAJOR",
    status := "OPEN", line := some 25, rule := "py:S100" }

/-- Concrete remote environment for the C1 witness. -/
def c1Env : Aggregator.RemoteEnv :=
  { sourceResult := .ok "print(1)"
  , issuesResult := .ok ([c1Issue], 1)
  , ruleResult := fun _ => .ok c1RuleDetail
  , snippetResult := fun _ => .ok
      [("proj:src/a.py", [⟨40, "a"⟩, ⟨12, "b"⟩, ⟨25, "c"⟩])] }

/-- The issue record the aggregator produces in the C1 witness run. -/
def c1Rec : Aggregator.IssueRecord :=
  { key := "I1", message := "m", severity := "MAJOR", status := "OPEN",
    line := some 25, rule := "py:S100", ruleDetail := some c1RuleDetail,
    snippet := { startLine := some 12, endLine := some 40,
                 code := [⟨40, "a"⟩, ⟨12, "b"⟩, ⟨25, "c"⟩] } }

/-- The report the aggregator produces in the C1 witness run. -/
def c1Rep : Aggregator.FileIssuesReport :=
  { projectKey := "proj", filePath := "src/a.py", fullSource := "print(1)",
    issues := [c1Rec], totalIssues := 1, errors := [] }

/-- Witness for C1: with snippet lines 40, 12, 25 the computed start line
is 12 and the end line 40. -/
theorem C1_snippet_min_max_witness :
    (Aggregator.getFileIssuesInformation c1Env "proj" "src/a.py" true =
        .ok c1Rep ∧
      c1Rec ∈ c1Rep.issues) ∧
    (c1Rec.snippet.startLine = some 12 ∧ c1Rec.snippet.endLine = some 40) ∧
    c1Rec.snippet.startLine =
      (c1Rec.snippet.code.map Aggregator.SnippetFragment.line).min? :=
  ⟨⟨rfl, by simp [c1Rep]⟩, ⟨rfl, rfl⟩,
   (C1_snippet_min_max c1Env "proj" "src/a.py" true c1Rep rfl c1Rec
      (by simp [c1Rep])).1⟩

/-- C2: for every aggregator invocation whose issue search returns N
issues, no issue is ever dropped by a failing rule or snippet lookup — the
report carries exactly N records with the same keys in the same order, a
failing rule lookup leaves that record with an empty rule sub-record and
appends an error naming the rule key, a failing snippet lookup leaves the
snippet sub-record empty and appends an error naming the issue key, and
the error sequence decomposes as the source-fetch errors followed by the
per-issue errors of every prefix and suffix of the issue list — it is only
ever appended to, never overwritten. -/
theorem C2_partial_failure_keeps_issues (env : Aggregator.RemoteEnv)
    (pk fp : String) (incl : Bool) (is : List Aggregator.IssueData)
    (total : Nat) (rep : Aggregator.FileIssuesReport)
    (hpk : pk ≠ "") (hfp : fp ≠ "")
    (hiss : env.issuesResult = .ok (is, total))
    (hrep : Aggregator.getFileIssuesInformation env pk fp incl = .ok rep) :
    rep.issues.length = is.length ∧
    rep.issues.map Aggregator.IssueRecord.key =
      is.map Aggregator.IssueData.key ∧
    (∀ i ∈ is, ∀ msg, env.ruleResult i.rule = .error msg →
        ∃ rec ∈ rep.issues, rec.key = i.key ∧ rec.ruleDetail = none ∧
          ("Failed to fetch rule details for " ++ i.rule ++ ": " ++ msg) ∈
            rep.errors) ∧
    (∀ i ∈ is, ∀ msg, env.snippetResult i.key = .error msg →
        ∃ rec ∈ rep.issues, rec.key = i.key ∧
          rec.snippet = Aggregator.emptySnippet ∧
          ("Failed to fetch snippets for issue " ++ i.key ++ ": " ++ msg) ∈
            rep.errors) ∧
    (∀ pre suf, is = pre ++ suf →
        rep.errors =
          (Aggregator.sourceFetch env (componentKey pk fp) incl).2 ++
          (Aggregator.processIssues env (componentKey pk fp) pre).2 ++
          (Aggregator.processIssues env (componentKey pk fp) suf).2) := by
  have h := (Aggregator.gfii_ok_eq env pk fp incl is total hpk hfp
    hiss).symm.trans hrep
  injection h with h
  subst h
  refine ⟨?_, ?_, ?_, ?_, ?_⟩
  · exact Aggregator.processIssues_length env (componentKey pk fp) is
  · exact Aggregator.processIssues_keys env (componentKey pk fp) is
  · intro i hi msg hmsg
    refine ⟨(Aggregator.enrichIssue env (componentKey pk fp) i).1,
      (Aggregator.processIssues_mem env (componentKey pk fp) hi).1,
      (Aggregator.enrichIssue_fields env (componentKey pk fp) i).1, ?_, ?_⟩
    · exact (Aggregator.enrich_rule_error env (componentKey pk fp) i msg
        hmsg).1
    · refine List.mem_append_right _ ?_
      exact (Aggregator.processIssues_mem env (componentKey pk fp) hi).2 _
        (Aggregator.enrich_rule_error env (componentKey pk fp) i msg hmsg).2
  · intro i hi msg hmsg
    refine ⟨(Aggregator.enrichIssue env (componentKey pk fp) i).1,
      (Aggregator.processIssues_mem env (componentKey pk fp) hi).1,
      (Aggregator.enrichIssue_fields env (componentKey pk fp) i).1, ?_, ?_⟩
    · exact (Aggregator.enrich_snippet_error env (componentKey pk fp) i msg
        hmsg).1
    · refine List.mem_append_right _ ?_
      exact (Aggregator.processIssues_mem env (componentKey pk fp) hi).2 _
        (Aggregator.enrich_snippet_error env (componentKey pk fp) i msg
          hmsg).2
  · intro pre suf hps
    subst hps
    rw [Aggregator.processIssues_append env (componentKey pk fp) pre suf]
    rw [List.append_assoc]

/-- The first remote issue of the C2 witness run; its rule lookup
succeeds. -/
def c2Issue1 : Aggregator.IssueData :=
  { key := "I1", message := "m1", severity := "MAJOR",
    status := "OPEN", line := some 3, rule := "py:S100" }

/-- The second remote issue of the C2 witness run; its rule lookup
fails. -/
def c2Issue2 : Aggregator.IssueData :=
  { key := "I2", message := "m2", severity := "MINOR",
    status := "OPEN", line := some 9, rule := "py:S200" }

/-- Concrete remote environment for the C2 witness: two issues, the rule
lookup failing exactly for the rule of the second issue. -/
def c2Env : Aggregator.RemoteEnv :=
  { sourceResult := .ok "full source"
  , issuesResult := .ok ([c2Issue1, c2Issue2], 2)
  , ruleResult := fun k =>
      if k = "py:S100" then .ok c1RuleDetail else .error "rule not found"
  , snippetResult := fun _ => .ok
      [("my_project:src/main.py", [⟨7, "x = 1"⟩])] }

/-- The report the aggregator produces in the C2 witness run. -/
def c2Rep : Aggregator.FileIssuesReport :=
  { projectKey := "my_project", filePath := "src/main.py",
    fullSource := "full source",
    issues :=
      [{ key := "I1", message := "m1", severity := "MAJOR",
         status := "OPEN", line := some 3, rule := "py:S100",
         ruleDetail := some c1RuleDetail,
         snippet := { startLine := some 7, endLine := some 7,
                      code := [⟨7, "x = 1"⟩] } },
       { key := "I2", message := "m2", severity := "MINOR",
         status := "OPEN", line := some 9, rule := "py:S200",
         ruleDetail := none,
         snippet := { startLine := some 7, endLine := some 7,
                      code := [⟨7, "x = 1"⟩] } }],
    totalIssues := 2,
    errors := ["Failed to fetch rule details for py:S200: rule not found"] }

/-- Witness for C2: both issue records survive although the rule lookup
of the second issue fails. -/
theorem C2_partial_failure_keeps_issues_witness :
    (("my_project" : String) ≠ "" ∧ ("src/main.py" : String) ≠ "" ∧
      c2Env.issuesResult = .ok ([c2Issue1, c2Issue2], 2) ∧
      Aggregator.getFileIssuesInformation c2Env "my_project" "src/main.py"
        true = .ok c2Rep) ∧
    c2Rep.issues.length = ([c2Issue1, c2Issue2] :
      List Aggregator.IssueData).length ∧
    c2Rep.issues.length = 2 ∧
    c2Env.ruleResult c2Issue2.rule = .error "rule not found" :=
  ⟨⟨by decide, by decide, rfl, rfl⟩,
   (C2_partial_failure_keeps_issues c2Env "my_project" "src/main.py" true
      [c2Issue1, c2Issue2] 2 c2Rep (by decide) (by decide) rfl rfl).1,
   rfl, rfl⟩

/-- C7: the composite component identifier built by the file-addressed
operations is exactly the project key, a single colon, then the file path
— in particular `proj` and `src/a.py` yield `proj:src/a.py` — and inside
the aggregation operation this exact colon-joined string is the key used
to look up the snippet-by-component mapping of every snippet response. -/
theorem C7_component_key (env : Aggregator.RemoteEnv) (pk fp : String)
    (incl : Bool) (is : List Aggregator.IssueData) (total : Nat)
    (rep : Aggregator.FileIssuesReport)
    (hpk : pk ≠ "") (hfp : fp ≠ "")
    (hiss : env.issuesResult = .ok (is, total))
    (hrep : Aggregator.getFileIssuesInformation env pk fp incl = .ok rep) :
    componentKey "proj" "src/a.py" = "proj:src/a.py" ∧
    componentKey pk fp = pk ++ ":" ++ fp ∧
    rep.issues.map Aggregator.IssueRecord.snippet =
      is.map (fun i =>
        (Aggregator.snippetLookup env (pk ++ ":" ++ fp) i.key).1) ∧
    (∀ i ∈ is, ∀ m, env.snippetResult i.key = .ok m →
        ∃ rec ∈ rep.issues, rec.key = i.key ∧
          rec.snippet = (match m.lookup (pk ++ ":" ++ fp) with
            | none => Aggregator.emptySnippet
            | some frags => Aggregator.snippetOfFragments frags)) := by
  have h := (Aggregator.gfii_ok_eq env pk fp incl is total hpk hfp
    hiss).symm.trans hrep
  injection h with h
  subst h
  refine ⟨rfl, rfl, ?_, ?_⟩
  · exact Aggregator.processIssues_snippets env (componentKey pk fp) is
  · intro i hi m hm
    refine ⟨(Aggregator.enrichIssue env (componentKey pk fp) i).1,
      (Aggregator.processIssues_mem env (componentKey pk fp) hi).1,
      (Aggregator.enrichIssue_fields env (componentKey pk fp) i).1, ?_⟩
    rw [(Aggregator.enrichIssue_fields env (componentKey pk fp) i).2.1]
    unfold Aggregator.snippetLookup
    rw [hm]
    show (Aggregator.processSnippet (pk ++ ":" ++ fp) (.ok m)).1 = _
    unfold Aggregator.processSnippet
    cases h2 : List.lookup (pk ++ ":" ++ fp) m with
    | none => simp [h2]
    | some frags => simp [h2]

/-- Concrete remote environment for the C7 witness. -/
def c7Env : Aggregator.RemoteEnv :=
  { sourceResult := .ok "body"
  , issuesResult := .ok ([c1Issue], 1)
  , ruleResult := fun _ => .ok c1RuleDetail
  , snippetResult := fun _ => .ok
      [("proj:src/a.py", [⟨5, "y = 2"⟩]), ("other:path", [⟨1, "z"⟩])] }

/-- The report the aggregator produces in the C7 witness run: the snippet
attached to the issue is the one stored under the colon-joined component
key, not the one stored under any other key. -/
def c7Rep : Aggregator.FileIssuesReport :=
  { projectKey := "proj", filePath := "src/a.py", fullSource := "body",
    issues :=
      [{ key := "I1", message := "m", severity := "MAJOR",
         status := "OPEN", line := some 25, rule := "py:S100",
         ruleDetail := some c1RuleDetail,
         snippet := { startLine := some 5, endLine := some 5,
                      code := [⟨5, "y = 2"⟩] } }],
    totalIssues := 1, errors := [] }

/-- Witness for C7 at the concrete project key `proj` and file path
`src/a.py`. -/
theorem C7_component_key_witness :
    (("proj" : String) ≠ "" ∧ ("src/a.py" : String) ≠ "" ∧
      c7Env.issuesResult = .ok ([c1Issue], 1) ∧
      Aggregator.getFileIssuesInformation c7Env "proj" "src/a.py" true =
        .ok c7Rep) ∧
    componentKey "proj" "src/a.py" = "proj:src/a.py" :=
  ⟨⟨by decide, by decide, rfl, rfl⟩,
   (C7_component_key c7Env "proj" "src/a.py" true [c1Issue] 1 c7Rep
      (by decide) (by decide) rfl rfl).1⟩

end SonarQubeMCP
